import Mathlib

/-!
# Verification of the lucid console async resource rendering core

A shallow embedding, in Lean 4, of the client-side resource-view state
machine, auth gate, mutation/invalidation coordination and input
normalization of the `roostmoe/lucid` administrative console
(`console/src`), together with proofs of the specified behavioural
properties.

Embedding conventions:
* The react-query `UseQueryResult` is modelled by the `QueryResult`
  structure; the derived flags `isLoading` / `isRefetching` follow the
  documented library definitions (`isLoading = pending ∧ fetching`,
  `isRefetching = fetching ∧ ¬pending`).
* JSX output is modelled by inductive render trees / strings; an
  interpolated `undefined` renders as the empty string, as in React.
* JS strings are modelled as lists of Unicode code points (`List Nat`)
  where character classes matter, and as `String` elsewhere.
-/

namespace Lucid

/-! ## Data model (spec section 3, react-query semantics) -/

/-- Query lifecycle status (`status ∈ {pending, success, error}`). -/
inductive QueryStatus where
  | pending
  | success
  | error
deriving DecidableEq, Repr

/-- The payload of a typed error: `{message, code}` (the error body of the
generated API client, reached in the component as `error.response?.data`). -/
structure ErrorData where
  message : String
  code : Option String
deriving DecidableEq, Repr

/-- The HTTP response attached to an axios error. -/
structure ErrorResponse where
  data : ErrorData
deriving DecidableEq, Repr

/-- An axios error as consumed by `data-table.tsx`: the `response` field is
absent for pure network failures (`error.response?.…`). -/
structure AxiosErrorModel where
  response : Option ErrorResponse
deriving DecidableEq, Repr

/-- The slice of the react-query `UseQueryResult` destructured by the
`DataTable` component: `{ data, error, isLoading, isFetching }`, plus the
underlying `status`.  `isLoading` and `isRefetching` are derived flags,
see below. -/
structure QueryResult (β : Type) where
  status : QueryStatus
  data : Option β
  error : Option AxiosErrorModel
  isFetching : Bool
deriving DecidableEq, Repr

/-- react-query: `isLoading = isPending && isFetching`. -/
def QueryResult.isLoading {β : Type} (q : QueryResult β) : Bool :=
  (q.status == .pending) && q.isFetching

/-- react-query: `isRefetching = isFetching && !isPending`. -/
def QueryResult.isRefetching {β : Type} (q : QueryResult β) : Bool :=
  q.isFetching && !(q.status == .pending)

/-- Library invariant relating `status` and `error` (spec section 3:
`data`/`error` are populated consistently with `status`): the error object
is present exactly when the status is `error`. -/
def QueryResult.wellFormed {β : Type} (q : QueryResult β) : Prop :=
  q.error.isSome ↔ q.status = .error

/-! ## Column model (`ColumnDef`, spec section 3 `ColumnSpec`) -/

/-- One table column: header label, accessor (row → display value) and an
optional custom cell renderer applied to the accessed value
(react-table `columnDef.cell`; when absent the value renders as plain
text, i.e. unchanged). -/
structure ColumnSpec (α : Type) where
  header : String
  accessor : α → String
  cellRenderer : Option (String → String)

/-- Cell rendering: the accessor value, passed through the custom cell
renderer when present (`flexRender(cell.column.columnDef.cell, …)`). -/
def renderCell {α : Type} (c : ColumnSpec α) (row : α) : String :=
  match c.cellRenderer with
  | some f => f (c.accessor row)
  | none => c.accessor row

/-! ## Empty-state configuration (`empty` prop of `DataTable`) -/

/-- One call-to-action of the empty state. -/
structure EmptyAction where
  title : String
  link : String
  variant : String
deriving DecidableEq, Repr

/-- The configurable empty-state notice. -/
structure EmptyConfig where
  title : String
  description : String
  actions : List EmptyAction
  learnMore : Option String
deriving DecidableEq, Repr

/-- The default `empty` prop of `DataTable` (data-table.tsx, lines 32-36). -/
def defaultEmptyConfig : EmptyConfig :=
  { title := "No data"
    description := "We couldn\x27t find any data to display."
    actions := []
    learnMore := none }

/-! ## The rendered table body -/

/-- The outcomes of rendering the `<TableBody>` of the `DataTable`: the
four mutually exclusive bodies — skeleton rows, a single full-width error
notice, a single full-width empty notice, or one row per data row (each
row a list of rendered cell values) — plus `crashed`, the `TypeError`
escape taken when the projected data is `undefined`: react-table computes
its row model lazily, and `getCoreRowModel` reads `originalRows.length`
inside `table.getRowModel()`, which throws before the `rows?.length`
guard of the component is ever evaluated. -/
inductive TableBody where
  | skeletonRows (rows : List (List Unit))
  | errorNotice (colSpan : Nat) (text : String)
  | emptyNotice (colSpan : Nat) (config : EmptyConfig)
  | dataRows (rows : List (List String))
  | crashed
deriving DecidableEq, Repr

/-- JSX interpolation of a possibly-`undefined` string: `undefined`
renders as nothing. -/
def jsxText (s : Option String) : String :=
  s.getD ""

/-- The description text of the error notice
(`\x7berror.response?.data.message\x7d (\x7berror.response?.data.code\x7d)`). -/
def errorNoticeText (e : AxiosErrorModel) : String :=
  jsxText (e.response.map (fun r => r.data.message)) ++ " (" ++
    jsxText (e.response.bind (fun r => r.data.code)) ++ ")"

/-- The body rendered by `DataTable` (data-table.tsx, lines 66-146):
`isLoading || isFetching` → 10 skeleton rows of one cell per column;
otherwise a present `error` → a single `colSpan=columns.length` notice;
otherwise the row model is consulted: if the projection produced
`undefined`, `table.getRowModel()` throws inside `getCoreRowModel`
(`crashed` — the skeleton and error branches never call it, so they are
unaffected by an `undefined` payload); a non-empty projected row list →
one rendered row per data row; an empty one → the empty notice. -/
def renderTableBody {α β : Type} (columns : List (ColumnSpec α))
    (q : QueryResult β) (queryResultDataToData : Option β → Option (List α))
    (empty : EmptyConfig) : TableBody :=
  if q.isLoading || q.isFetching then
    .skeletonRows (List.replicate 10 (List.replicate columns.length ()))
  else
    match q.error with
    | some e => .errorNotice columns.length (errorNoticeText e)
    | none =>
      match queryResultDataToData q.data with
      | none => .crashed
      | some rows =>
        if rows.length = 0 then
          .emptyNotice columns.length empty
        else
          .dataRows (rows.map (fun r => columns.map (fun c => renderCell c r)))

/-- The default projection of the component (data-table.tsx, line 31):
`(queryResultData?) => queryResultData as unknown as TData[]` — a bare
cast, i.e. the identity on the (possibly `undefined`) payload. -/
def defaultQueryResultDataToData {α : Type} (d : Option (List α)) :
    Option (List α) :=
  d

/-! ## Fixtures: the activation-keys collection -/

/-- An activation key row.  The field shape follows the accessors used in
`keys-table.tsx` (`key_id`, `description`, `created_at`, `id`). -/
structure ActivationKey where
  id : String
  key_id : String
  description : String
  created_at : String
deriving DecidableEq, Repr

/-- The activation-keys list response: rows nested under an optional
`items` field. -/
structure ListKeysPayload where
  items : Option (List ActivationKey)
deriving DecidableEq, Repr

/-- The caller-supplied projection of the activation-keys route
(`routes/_console/activation-keys/index.tsx`, line 26):
`q => q ? q.items ?? [] : []`. -/
def activationKeysProjection (q : Option ListKeysPayload) :
    Option (List ActivationKey) :=
  some (match q with
        | some p => p.items.getD []
        | none => [])

/-- A single plain column over activation keys, for concrete witnesses. -/
def keyIdColumn : ColumnSpec ActivationKey :=
  { header := "Key ID", accessor := fun k => k.key_id, cellRenderer := none }

end Lucid

namespace Lucid

/-! ## Claim C1: loading state -/

/-- A success query with one stale cached item and a refetch in flight. -/
def staleRefetchQuery : QueryResult ListKeysPayload :=
  { status := .success
    data := some { items := some [{ id := "1", key_id := "a",
                                    description := "", created_at := "" }] }
    error := none
    isFetching := true }

/-- C1: whenever the query is loading (`status == pending` with a fetch in
flight, i.e. `isLoading`) or refetching/fetching, the rendered body is the
skeleton: exactly 10 placeholder rows, each with one cell per column, and
no data rows appear regardless of the (possibly stale) `data` payload. -/
theorem dataTable_loading_renders_ten_skeleton_rows {α β : Type}
    (columns : List (ColumnSpec α)) (q : QueryResult β)
    (proj : Option β → Option (List α)) (empty : EmptyConfig)
    (h : q.isLoading = true ∨ q.isRefetching = true ∨ q.isFetching = true) :
    renderTableBody columns q proj empty =
      .skeletonRows (List.replicate 10 (List.replicate columns.length ())) ∧
    (List.replicate 10 (List.replicate columns.length ())).length = 10 ∧
    (∀ r ∈ List.replicate 10 (List.replicate columns.length ()),
      r.length = columns.length) ∧
    (∀ rows, renderTableBody columns q proj empty ≠ .dataRows rows) := by
  have hf : q.isFetching = true := by
    rcases h with h | h | h
    · exact (Bool.and_eq_true _ _ |>.mp h).2
    · exact (Bool.and_eq_true _ _ |>.mp h).1
    · exact h
  have hcond : (q.isLoading || q.isFetching) = true := by
    simp [hf]
  refine ⟨?_, by simp, ?_, ?_⟩
  · simp [renderTableBody, hcond]
  · intro r hr
    simp_all [List.eq_of_mem_replicate hr]
  · intro rows
    simp [renderTableBody, hcond]

/-- C1 witness: a refetching query over stale data (one item already
cached) still renders the 10 × 1 skeleton body, not the stale row. -/
theorem dataTable_loading_renders_ten_skeleton_rows_witness :
    renderTableBody [keyIdColumn] staleRefetchQuery
      activationKeysProjection defaultEmptyConfig =
      .skeletonRows (List.replicate 10 (List.replicate 1 ())) := by
  have h := dataTable_loading_renders_ten_skeleton_rows [keyIdColumn]
    staleRefetchQuery activationKeysProjection defaultEmptyConfig
    (Or.inr (Or.inr rfl))
  simpa using h.1

end Lucid

namespace Lucid

/-! ## Claim C3: error state -/

/-- The error fixture of spec section 8, scenario B. -/
def scenarioBError : AxiosErrorModel :=
  { response := some { data := { message := "Unauthorized", code := some "401" } } }

/-- The query fixture of spec section 8, scenario B. -/
def scenarioBQuery : QueryResult ListKeysPayload :=
  { status := .error
    data := none
    error := some scenarioBError
    isFetching := false }

/-- C3: a settled query holding an error (with a server response attached)
renders a single full-width notice row — `colSpan` equal to the column
count, no column-specific cells — whose text carries the human-readable
`message`; the machine-readable `code` appears alongside exactly when
present, and with no code the text is the message followed by empty
parentheses (no code is displayed). -/
theorem dataTable_error_renders_fullwidth_notice {α β : Type}
    (columns : List (ColumnSpec α)) (q : QueryResult β)
    (proj : Option β → Option (List α)) (empty : EmptyConfig)
    (e : AxiosErrorModel) (resp : ErrorResponse)
    (hs : q.status = .error) (hf : q.isFetching = false)
    (he : q.error = some e) (hr : e.response = some resp) :
    renderTableBody columns q proj empty =
      .errorNotice columns.length (errorNoticeText e) ∧
    errorNoticeText e =
      resp.data.message ++ " (" ++ resp.data.code.getD "" ++ ")" ∧
    (∀ c, resp.data.code = some c →
      errorNoticeText e = resp.data.message ++ " (" ++ c ++ ")") ∧
    (resp.data.code = none →
      errorNoticeText e = resp.data.message ++ " (" ++ ")") := by
  have hcond : (q.isLoading || q.isFetching) = false := by
    simp [QueryResult.isLoading, hf]
  refine ⟨?_, ?_, ?_, ?_⟩
  · simp [renderTableBody, hcond, he]
  · simp [errorNoticeText, hr, jsxText, Option.bind]
  · intro c hc
    simp [errorNoticeText, hr, jsxText, Option.bind, hc]
  · intro hc
    simp [errorNoticeText, hr, jsxText, Option.bind, hc]

/-- C3 witness (spec section 8, scenario B): the query
`{status: error, error: {message: "Unauthorized", code: "401"}}` renders a
single error row containing "Unauthorized (401)". -/
theorem dataTable_error_renders_fullwidth_notice_witness :
    renderTableBody [keyIdColumn] scenarioBQuery
      activationKeysProjection defaultEmptyConfig =
      .errorNotice 1 "Unauthorized (401)" := by
  have h := dataTable_error_renders_fullwidth_notice [keyIdColumn]
    scenarioBQuery activationKeysProjection defaultEmptyConfig
    scenarioBError { data := { message := "Unauthorized", code := some "401" } }
    rfl rfl rfl rfl
  rw [h.1, h.2.2.1 "401" rfl]
  rfl

end Lucid

namespace Lucid

/-! ## Claim C2: empty / populated states

The claim as frozen quantifies over *every* query with `status == success`.
The component, however, gives the loading branch priority (spec
section 4.1, first match wins): a success query with a refetch in flight
(`isFetching == true`) renders skeleton rows even when the projected row
sequence is empty.  The counterexample below exhibits this; the amended
theorem adds the proviso that no fetch is in flight. -/

/-- A success query (stale empty payload) with a refetch in flight, used
as the C2 counterexample. -/
def refetchingEmptySuccessQuery : QueryResult ListKeysPayload :=
  { status := .success
    data := some { items := some [] }
    error := none
    isFetching := true }

/-- C2 counterexample: `refetchingEmptySuccessQuery` has `status == success`
and projected row count 0, yet the rendered body is the skeleton, not the
empty notice. -/
theorem dataTable_success_empty_refetching_not_empty_state :
    (activationKeysProjection refetchingEmptySuccessQuery.data =
       some ([] : List ActivationKey)) ∧
    renderTableBody [keyIdColumn] refetchingEmptySuccessQuery
      activationKeysProjection defaultEmptyConfig =
      .skeletonRows (List.replicate 10 (List.replicate 1 ())) ∧
    renderTableBody [keyIdColumn] refetchingEmptySuccessQuery
      activationKeysProjection defaultEmptyConfig ≠
      .emptyNotice 1 defaultEmptyConfig := by
  refine ⟨rfl, ?_, ?_⟩ <;> simp [renderTableBody, refetchingEmptySuccessQuery,
    QueryResult.isLoading]

/-- C2 (amended): for a settled success query — no fetch in flight, hence
no loading priority — a projected row count of 0 renders the configurable
empty notice, and a projected row count N > 0 renders exactly N data rows,
each cell the accessor value of its column passed through the custom cell
renderer of that column when present. -/
theorem dataTable_success_empty_or_populated {α β : Type}
    (columns : List (ColumnSpec α)) (q : QueryResult β)
    (proj : Option β → Option (List α)) (empty : EmptyConfig)
    (rows : List α)
    (hwf : q.wellFormed) (hs : q.status = .success)
    (hf : q.isFetching = false) (hp : proj q.data = some rows) :
    (rows.length = 0 →
      renderTableBody columns q proj empty =
        .emptyNotice columns.length empty) ∧
    (rows.length ≠ 0 →
      renderTableBody columns q proj empty =
        .dataRows (rows.map (fun r => columns.map (fun c => renderCell c r))) ∧
      (rows.map (fun r => columns.map (fun c => renderCell c r))).length =
        rows.length) := by
  have he : q.error = none := by
    rcases hq : q.error with _ | e
    · rfl
    · exfalso
      have herr : q.status = .error := hwf.mp (by simp [hq])
      rw [hs] at herr
      exact QueryStatus.noConfusion herr
  have hcond : (q.isLoading || q.isFetching) = false := by
    simp [QueryResult.isLoading, hf]
  constructor
  · intro hz
    simp [renderTableBody, hcond, he, hp, hz]
  · intro hnz
    refine ⟨?_, by simp⟩
    simp [renderTableBody, hcond, he, hp, hnz]

/-- A settled success query holding two activation keys. -/
def twoKeysQuery : QueryResult ListKeysPayload :=
  { status := .success
    data := some { items := some [
      { id := "1", key_id := "alpha", description := "", created_at := "" },
      { id := "2", key_id := "beta", description := "", created_at := "" }] }
    error := none
    isFetching := false }

/-- A settled success query holding an empty item list (spec section 8,
scenario A). -/
def emptyKeysQuery : QueryResult ListKeysPayload :=
  { status := .success
    data := some { items := some [] }
    error := none
    isFetching := false }

/-- C2 witness: a settled success query with two activation keys renders
exactly two data rows carrying the key ids, and the settled empty query
renders the empty notice. -/
theorem dataTable_success_empty_or_populated_witness :
    renderTableBody [keyIdColumn] twoKeysQuery
      activationKeysProjection defaultEmptyConfig =
      .dataRows [["alpha"], ["beta"]] ∧
    renderTableBody [keyIdColumn] emptyKeysQuery
      activationKeysProjection defaultEmptyConfig =
      .emptyNotice 1 defaultEmptyConfig := by
  constructor
  · have h := dataTable_success_empty_or_populated [keyIdColumn] twoKeysQuery
      activationKeysProjection defaultEmptyConfig
      [{ id := "1", key_id := "alpha", description := "", created_at := "" },
       { id := "2", key_id := "beta", description := "", created_at := "" }]
      (by constructor <;> intro hh <;> simp_all [twoKeysQuery]) rfl rfl rfl
    have h2 := (h.2 (by decide)).1
    simpa [renderCell, keyIdColumn] using h2
  · have h := dataTable_success_empty_or_populated [keyIdColumn] emptyKeysQuery
      activationKeysProjection defaultEmptyConfig []
      (by constructor <;> intro hh <;> simp_all [emptyKeysQuery]) rfl rfl rfl
    simpa using h.1 rfl

end Lucid

namespace Lucid

/-! ## Auth gate (routes/__root.tsx) -/

/-- The auth context snapshot shared through the router context
(`lib/state/auth.tsx`): `{loading, authenticated, user}`. -/
structure AuthSnapshot (User : Type) where
  loading : Bool
  authenticated : Bool
  user : Option User
deriving DecidableEq, Repr

/-- The login route path used by the gate. -/
def loginRoute : String := "/auth/login"

/-- The home route path used by the gate. -/
def homeRoute : String := "/"

/-- The decision the root-route loader takes once the poll has resolved
(routes/__root.tsx, lines 38-43): `some target` means a thrown redirect to
`target`, `none` means the target route renders. -/
def gateDecision {User : Type} (auth : AuthSnapshot User)
    (pathname : String) : Option String :=
  if !auth.authenticated && pathname != loginRoute then
    some loginRoute
  else if auth.authenticated && pathname == loginRoute then
    some homeRoute
  else
    none

/-! ## Claim C4: gate decision after the wait resolves -/

/-- C4: once the wait has resolved (`loading = false`), the gate redirects
an unauthenticated navigation to any non-login route to the login route,
redirects an authenticated navigation to the login route to the home
route, and proceeds without redirect in the two remaining cases. -/
theorem authGate_decision_cases {User : Type} (auth : AuthSnapshot User)
    (pathname : String) (hl : auth.loading = false) :
    (auth.authenticated = false → pathname ≠ loginRoute →
      gateDecision auth pathname = some loginRoute) ∧
    (auth.authenticated = true → pathname = loginRoute →
      gateDecision auth pathname = some homeRoute) ∧
    (auth.authenticated = false → pathname = loginRoute →
      gateDecision auth pathname = none) ∧
    (auth.authenticated = true → pathname ≠ loginRoute →
      gateDecision auth pathname = none) := by
  refine ⟨?_, ?_, ?_, ?_⟩ <;> intro ha hp <;>
    simp [gateDecision, ha, hp]

/-- C4 witness (spec section 8, scenario D): a resolved authenticated
state at path `/auth/login` redirects to `/`. -/
theorem authGate_decision_cases_witness :
    gateDecision
      ({ loading := false, authenticated := true, user := none } :
        AuthSnapshot Unit) "/auth/login" = some "/" := by
  have h := authGate_decision_cases
    ({ loading := false, authenticated := true, user := none } :
      AuthSnapshot Unit) "/auth/login" rfl
  exact h.2.1 rfl rfl

/-! ## Claim C9: at most one redirect, no loop -/

/-- C9: for a fixed terminal auth state, a redirect issued by the gate is
never followed by another one: re-entering the gate at the redirect
target yields no further redirect, and the two possible redirect targets
(login route and home route) are distinct. -/
theorem authGate_no_redirect_loop {User : Type} (auth : AuthSnapshot User)
    (pathname target : String) (hl : auth.loading = false)
    (hr : gateDecision auth pathname = some target) :
    gateDecision auth target = none ∧ loginRoute ≠ homeRoute := by
  constructor
  · rcases hb : auth.authenticated with _ | _
    · have ht : target = loginRoute := by
        by_cases hp : pathname == loginRoute <;>
          simp_all [gateDecision]
      subst ht
      simp [gateDecision, hb]
    · have ht : target = homeRoute := by
        by_cases hp : pathname == loginRoute <;>
          simp_all [gateDecision]
      subst ht
      simp [gateDecision, hb, loginRoute, homeRoute]
  · simp [loginRoute, homeRoute]

/-- C9 witness: the unauthenticated redirect from `/` lands on the login
route, where the gate then proceeds without redirecting. -/
theorem authGate_no_redirect_loop_witness :
    (gateDecision
      ({ loading := false, authenticated := false, user := none } :
        AuthSnapshot Unit) "/" = some "/auth/login") ∧
    gateDecision
      ({ loading := false, authenticated := false, user := none } :
        AuthSnapshot Unit) "/auth/login" = none := by
  refine ⟨by decide, ?_⟩
  have h := authGate_no_redirect_loop
    ({ loading := false, authenticated := false, user := none } :
      AuthSnapshot Unit) "/" "/auth/login" rfl (by decide)
  exact h.1

end Lucid

namespace Lucid

/-! ## Claim C7: projection of raw payloads

The claim asserts that an `undefined` payload projects to the empty
sequence *including* under the default projection of the `DataTable`.
The caller-supplied projection of the activation-keys route indeed sends
`undefined` (and a payload with missing `items`) to `[]`, but the default
projection of the component is a bare cast — the identity — and therefore
leaves `undefined` as `undefined` rather than producing the empty
sequence; on that path the table does not reach a benign render at all:
`useReactTable` receives `undefined` data and `table.getRowModel()`
throws inside `getCoreRowModel` (`crashed`).  The counterexample below
exhibits the default projection; the amended theorem states both
behaviours. -/

/-- C7 counterexample: the default projection applied to an absent payload
yields `undefined` (no sequence), not the empty sequence. -/
theorem defaultProjection_undefined_not_empty_sequence :
    defaultQueryResultDataToData (none : Option (List ActivationKey)) ≠
      some ([] : List ActivationKey) := by
  simp [defaultQueryResultDataToData]

/-- A settled success query with no payload at all. -/
def settledNoDataQuery : QueryResult ListKeysPayload :=
  { status := .success
    data := none
    error := none
    isFetching := false }

/-- A settled success query over a bare row-list payload, with no payload
at all, for exercising the default projection. -/
def settledNoDataListQuery : QueryResult (List ActivationKey) :=
  { status := .success
    data := none
    error := none
    isFetching := false }

/-- C7 (amended): the caller-supplied projection of the activation-keys
route maps an absent payload, and a payload with a missing `items` field,
to the empty sequence, and unwraps a present `items` list unchanged —
under it a settled success query with an absent payload renders the
empty notice; the default projection of the `DataTable`, however, is the
identity — it leaves an absent payload absent — and there a settled
success query with an absent payload does not produce a row sequence at
all: the row-model computation throws. -/
theorem projection_handles_items_and_undefined (l : List ActivationKey) :
    activationKeysProjection none = some [] ∧
    activationKeysProjection (some { items := none }) = some [] ∧
    activationKeysProjection (some { items := some l }) = some l ∧
    defaultQueryResultDataToData (none : Option (List ActivationKey)) = none ∧
    renderTableBody [keyIdColumn] settledNoDataQuery
      activationKeysProjection defaultEmptyConfig =
      .emptyNotice 1 defaultEmptyConfig ∧
    renderTableBody [keyIdColumn] settledNoDataListQuery
      defaultQueryResultDataToData defaultEmptyConfig = .crashed := by
  refine ⟨rfl, rfl, ?_, rfl, ?_, ?_⟩
  · simp [activationKeysProjection]
  · simp [renderTableBody, settledNoDataQuery, QueryResult.isLoading,
      activationKeysProjection]
  · simp [renderTableBody, settledNoDataListQuery, QueryResult.isLoading,
      defaultQueryResultDataToData]

/-- C7 witness: the amended statement at the singleton list. -/
theorem projection_handles_items_and_undefined_witness :
    activationKeysProjection
      (some { items := some [{ id := "1", key_id := "a",
                               description := "", created_at := "" }] }) =
      some [{ id := "1", key_id := "a",
              description := "", created_at := "" }] := by
  exact (projection_handles_items_and_undefined
    [{ id := "1", key_id := "a", description := "", created_at := "" }]).2.2.1

end Lucid

namespace Lucid

/-! ## Mutation → cache invalidation (create-modal.tsx, keys-table.tsx) -/

/-- Modelled from the spec: the query key of the activation-keys listing,
produced by the generated API client (`listActivationKeysQueryKey` in
`lib/client/@tanstack/react-query.gen`, which is generated code absent
from the snapshot).  It is an opaque logical-collection identity. -/
def listActivationKeysQueryKey : List String :=
  ["listActivationKeys"]

/-- The cached state of one collection query: its key, the cached payload
and the staleness mark set by invalidation. -/
structure CollectionCache (α : Type) where
  key : List String
  cachedData : Option α
  stale : Bool
deriving DecidableEq, Repr

/-- `queryClient.invalidateQueries(\x7bqueryKey\x7d)`: mark the matching
collection stale (a pure mark, the cached payload is kept until the
refetch completes). -/
def invalidateQueries {α : Type} (queryKey : List String)
    (c : CollectionCache α) : CollectionCache α :=
  if c.key = queryKey then { c with stale := true } else c

/-- The result of a successful activation-key creation: the created key
plus its one-time token. -/
structure CreateKeyResult where
  key : ActivationKey
  token : String
deriving DecidableEq, Repr

/-- The id/description fields of the create-modal form. -/
structure ModalFormState where
  id : String
  description : String
deriving DecidableEq, Repr

/-- The mutation handle surfaced to the modal (`useMutation`):
`isSuccess`, `data` and the error of the write itself. -/
structure MutationSnapshot (ρ : Type) where
  isSuccess : Bool
  data : Option ρ
  error : Option AxiosErrorModel
deriving DecidableEq, Repr

/-- The `onSuccess` callback of the create mutation (create-modal.tsx,
lines 25-30): clear the form fields and invalidate the activation-keys
list query. -/
def createModalOnSuccess {α : Type} (form : ModalFormState)
    (cache : CollectionCache α) : ModalFormState × CollectionCache α :=
  ({ id := "", description := "" },
   invalidateQueries listActivationKeysQueryKey cache)

/-- Settling the create mutation: a success acknowledgment runs the
`onSuccess` callback; a failure runs no callback — the cache is not
consulted — and surfaces the error through the mutation handle. -/
def settleCreateMutation {α : Type} (form : ModalFormState)
    (cache : CollectionCache α)
    (outcome : Except AxiosErrorModel CreateKeyResult) :
    ModalFormState × CollectionCache α × MutationSnapshot CreateKeyResult :=
  match outcome with
  | .ok r =>
    let p := createModalOnSuccess form cache
    (p.1, p.2, { isSuccess := true, data := some r, error := none })
  | .error e =>
    (form, cache, { isSuccess := false, data := none, error := some e })

/-- Settling the delete mutation of the keys-table actions column
(keys-table.tsx, lines 40-45): `onSuccess` invalidates the same list key;
a failure touches nothing. -/
def settleDeleteMutation {α : Type} (cache : CollectionCache α)
    (outcome : Except AxiosErrorModel Unit) :
    CollectionCache α × Option AxiosErrorModel :=
  match outcome with
  | .ok _ => (invalidateQueries listActivationKeysQueryKey cache, none)
  | .error e => (cache, some e)

/-! ## Claim C5: invalidation only after success acknowledgment -/

/-- C5: for the create and delete writes over the activation-keys list, a
failed write leaves the cached collection exactly as it was and surfaces
the write error through the mutation handle alone, while a successful
write invalidates precisely the activation-keys list key — the staleness
mark is set on the matching collection and the cached payload is kept. -/
theorem mutation_invalidates_only_after_success {α : Type}
    (form : ModalFormState) (cache : CollectionCache α)
    (outcome : Except AxiosErrorModel CreateKeyResult) :
    (∀ e, outcome = .error e →
      (settleCreateMutation form cache outcome).2.1 = cache ∧
      (settleCreateMutation form cache outcome).2.2.error = some e ∧
      (settleCreateMutation form cache outcome).2.2.isSuccess = false) ∧
    (∀ r, outcome = .ok r →
      (settleCreateMutation form cache outcome).2.1 =
        invalidateQueries listActivationKeysQueryKey cache ∧
      (cache.key = listActivationKeysQueryKey →
        (settleCreateMutation form cache outcome).2.1.stale = true) ∧
      (settleCreateMutation form cache outcome).2.1.cachedData =
        cache.cachedData) ∧
    (∀ outcomeD e, outcomeD = Except.error e →
      (settleDeleteMutation cache outcomeD).1 = cache ∧
      (settleDeleteMutation cache outcomeD).2 = some e) ∧
    (∀ outcomeD, outcomeD = Except.ok () →
      (settleDeleteMutation cache outcomeD).1 =
        invalidateQueries listActivationKeysQueryKey cache) := by
  refine ⟨?_, ?_, ?_, ?_⟩
  · intro e he
    subst he
    exact ⟨rfl, rfl, rfl⟩
  · intro r hr
    subst hr
    refine ⟨rfl, ?_, ?_⟩
    · intro hk
      simp [settleCreateMutation, createModalOnSuccess, invalidateQueries, hk]
    · simp [settleCreateMutation, createModalOnSuccess, invalidateQueries]
      split <;> rfl
  · intro outcomeD e he
    subst he
    exact ⟨rfl, rfl⟩
  · intro outcomeD hok
    subst hok
    rfl

/-- C5 witness: with a fresh one-item cache under the activation-keys
list key, a failed create leaves the cache identical, and a successful
create marks it stale while keeping the cached payload. -/
theorem mutation_invalidates_only_after_success_witness :
    (settleCreateMutation { id := "x", description := "" }
      ({ key := listActivationKeysQueryKey
         cachedData := some [{ id := "1", key_id := "a",
                               description := "", created_at := "" }]
         stale := false } : CollectionCache (List ActivationKey))
      (Except.error { response := none })).2.1 =
      ({ key := listActivationKeysQueryKey
         cachedData := some [{ id := "1", key_id := "a",
                               description := "", created_at := "" }]
         stale := false } : CollectionCache (List ActivationKey)) ∧
    (settleCreateMutation { id := "x", description := "" }
      ({ key := listActivationKeysQueryKey
         cachedData := some [{ id := "1", key_id := "a",
                               description := "", created_at := "" }]
         stale := false } : CollectionCache (List ActivationKey))
      (Except.ok { key := { id := "2", key_id := "b",
                            description := "", created_at := "" }
                   token := "secret" })).2.1.stale = true := by
  constructor
  · have h := mutation_invalidates_only_after_success
      { id := "x", description := "" }
      ({ key := listActivationKeysQueryKey
         cachedData := some [{ id := "1", key_id := "a",
                               description := "", created_at := "" }]
         stale := false } : CollectionCache (List ActivationKey))
      (Except.error { response := none })
    exact (h.1 { response := none } rfl).1
  · have h := mutation_invalidates_only_after_success
      { id := "x", description := "" }
      ({ key := listActivationKeysQueryKey
         cachedData := some [{ id := "1", key_id := "a",
                               description := "", created_at := "" }]
         stale := false } : CollectionCache (List ActivationKey))
      (Except.ok { key := { id := "2", key_id := "b",
                            description := "", created_at := "" }
                   token := "secret" })
    exact (h.2.1 { key := { id := "2", key_id := "b",
                            description := "", created_at := "" }
                   token := "secret" } rfl).2.1 rfl

end Lucid

namespace Lucid

/-! ## Claim C6: retry disabled in the query client defaults -/

/-- The default options of the shared query client
(`lib/query/index.tsx`, lines 4-14).  The source comment reads: disable
retry to improve user UX and get error feedback faster. -/
structure QueryClientDefaults where
  retry : Bool
  refetchOnWindowFocus : Bool
  refetchOnReconnect : Bool
  refetchOnMount : Bool
deriving DecidableEq, Repr

/-- `new QueryClient(\x7bdefaultOptions: \x7bqueries: …\x7d\x7d)` with
`retry: false` and all automatic refetch triggers disabled. -/
def queryClientDefaults : QueryClientDefaults :=
  { retry := false
    refetchOnWindowFocus := false
    refetchOnReconnect := false
    refetchOnMount := false }

/-- The automatic-retry budget react-query derives from the `retry`
option: `false` → 0 retries; leaving the flag on would mean the library
default of 3 retries. -/
def retryBudget (d : QueryClientDefaults) : Nat :=
  if d.retry then 3 else 0

/-- A fetch run with up to `budget` automatic retries: attempt number
`start` is issued; on failure the next attempt follows while budget
remains.  Returns how many attempts were issued and the final outcome. -/
def runAttempts {ε α : Type} (f : Nat → Except ε α) (start budget : Nat) :
    Nat × Except ε α :=
  match f start with
  | .ok a => (1, .ok a)
  | .error e =>
    match budget with
    | 0 => (1, .error e)
    | b + 1 =>
      let p := runAttempts f (start + 1) b
      (p.1 + 1, p.2)

/-- One collection fetch under the shared query client defaults. -/
def fetchWithClientDefaults {ε α : Type} (f : Nat → Except ε α) :
    Nat × Except ε α :=
  runAttempts f 0 (retryBudget queryClientDefaults)

/-- C6: the query client defaults disable retry, so a failing first
attempt is never retried — exactly one attempt is issued and its error is
the terminal outcome. -/
theorem queryClient_never_retries_failed_fetch {ε α : Type}
    (f : Nat → Except ε α) (e : ε) (h : f 0 = .error e) :
    queryClientDefaults.retry = false ∧
    retryBudget queryClientDefaults = 0 ∧
    fetchWithClientDefaults f = (1, .error e) := by
  refine ⟨rfl, rfl, ?_⟩
  simp [fetchWithClientDefaults, runAttempts, retryBudget,
    queryClientDefaults, h]

/-- C6 witness: a fetch that always fails with a network error is issued
exactly once and surfaces that error. -/
theorem queryClient_never_retries_failed_fetch_witness :
    fetchWithClientDefaults
      (fun _ => (Except.error "network failure" : Except String Nat)) =
      (1, Except.error "network failure") := by
  exact (queryClient_never_retries_failed_fetch
    (fun _ => (Except.error "network failure" : Except String Nat))
    "network failure" rfl).2.2

end Lucid

namespace Lucid

/-! ## Claim C8: the auth provider resolves exactly once -/

/-- The slice of the whoami query observed by the provider effect
(`lib/state/auth.tsx`, line 23): `\x7bdata: user, isLoading, error\x7d`. -/
structure WhoamiSnapshot (User ε : Type) where
  isLoading : Bool
  user : Option User
  error : Option ε
deriving DecidableEq, Repr

/-- The whoami query before it settles. -/
def loadingWhoami {User ε : Type} : WhoamiSnapshot User ε :=
  { isLoading := true, user := none, error := none }

/-- The whoami query once settled with outcome `r`. -/
def settledWhoami {User ε : Type} (r : Except ε User) :
    WhoamiSnapshot User ε :=
  { isLoading := false
    user := match r with | .ok u => some u | .error _ => none
    error := match r with | .ok _ => none | .error e => some e }

/-- The initial provider state (auth.tsx, lines 18-21):
`\x7bloading: true, authenticated: false\x7d`. -/
def initialAuthState {User : Type} : AuthSnapshot User :=
  { loading := true, authenticated := false, user := none }

/-- The provider effect (auth.tsx, lines 27-36): while the whoami query
is loading nothing is published; once it is not, the terminal snapshot
`\x7bloading: false, authenticated: !error, user\x7d` is published. -/
def authStep {User ε : Type} (s : AuthSnapshot User)
    (obs : WhoamiSnapshot User ε) : AuthSnapshot User :=
  if obs.isLoading then s
  else { loading := false, authenticated := obs.error.isNone, user := obs.user }

/-- The terminal snapshot published for whoami outcome `r`. -/
def resolveAuth {User ε : Type} (r : Except ε User) : AuthSnapshot User :=
  { loading := false
    authenticated := match r with | .ok _ => true | .error _ => false
    user := match r with | .ok u => some u | .error _ => none }

/-- The state trace of the provider: the current state followed by the
states after each observation of the whoami query. -/
def authStates {User ε : Type} (s : AuthSnapshot User) :
    List (WhoamiSnapshot User ε) → List (AuthSnapshot User)
  | [] => [s]
  | o :: os => s :: authStates (authStep s o) os

/-- Collapse runs of consecutive equal states, leaving the sequence of
distinct states the provider publishes. -/
def collapseRuns {A : Type} [DecidableEq A] : List A → List A
  | [] => []
  | [a] => [a]
  | a :: b :: rest =>
    if a = b then collapseRuns (b :: rest) else a :: collapseRuns (b :: rest)

theorem authStep_loading {User ε : Type} (s : AuthSnapshot User) :
    authStep s (loadingWhoami (ε := ε)) = s := by
  rfl

theorem authStep_settled {User ε : Type} (s : AuthSnapshot User)
    (r : Except ε User) :
    authStep s (settledWhoami r) = resolveAuth r := by
  cases r <;> rfl

theorem authStates_replicate_loading {User ε : Type} (s : AuthSnapshot User)
    (n : Nat) (rest : List (WhoamiSnapshot User ε)) :
    authStates s (List.replicate n (loadingWhoami (ε := ε)) ++ rest) =
      List.replicate n s ++ authStates s rest := by
  induction n with
  | zero => rfl
  | succ k ih =>
    simp only [List.replicate_succ, List.cons_append, authStates,
      authStep_loading]
    exact congrArg (List.cons s) ih

theorem authStates_replicate_settled {User ε : Type} (r : Except ε User)
    (m : Nat) :
    authStates (resolveAuth r) (List.replicate m (settledWhoami r)) =
      List.replicate (m + 1) (resolveAuth r) := by
  induction m with
  | zero => rfl
  | succ k ih =>
    simp only [List.replicate_succ, authStates, authStep_settled, ih]

theorem collapseRuns_replicate_cons {A : Type} [DecidableEq A] (n : Nat)
    (a : A) (l : List A) :
    collapseRuns (List.replicate n a ++ (a :: l)) = collapseRuns (a :: l) := by
  induction n with
  | zero => rfl
  | succ k ih =>
    cases k with
    | zero => simp [collapseRuns]
    | succ j =>
      simp only [List.replicate_succ, List.cons_append] at ih ⊢
      rw [collapseRuns, if_pos rfl]
      exact ih

theorem collapseRuns_self_replicate {A : Type} [DecidableEq A] (m : Nat)
    (a : A) :
    collapseRuns (a :: List.replicate m a) = [a] := by
  induction m with
  | zero => rfl
  | succ k ih =>
    simp only [List.replicate_succ]
    rw [collapseRuns, if_pos rfl]
    exact ih

/-- C8: per page load the provider state transitions exactly once — over
any whoami trace of `n` loading observations followed by a settled
outcome observed `m + 1` times, the distinct published states are
precisely the initial `loading = true` snapshot and the terminal
`loading = false` snapshot; a published non-loading state never reverts
to loading; and a failed whoami check resolves to
`authenticated = false` (a state, not a crash). -/
theorem authProvider_transitions_once {User ε : Type} [DecidableEq User]
    [DecidableEq ε] (n m : Nat) (r : Except ε User) :
    collapseRuns (authStates initialAuthState
        (List.replicate n (loadingWhoami (ε := ε)) ++
         List.replicate (m + 1) (settledWhoami r))) =
      [initialAuthState, resolveAuth r] ∧
    (resolveAuth r : AuthSnapshot User).loading = false ∧
    (∀ (s : AuthSnapshot User) (obs : WhoamiSnapshot User ε),
      s.loading = false → (authStep s obs).loading = false) ∧
    (∀ e, r = Except.error e →
      (resolveAuth r : AuthSnapshot User) =
        { loading := false, authenticated := false, user := none }) := by
  refine ⟨?_, rfl, ?_, ?_⟩
  · rw [authStates_replicate_loading]
    have hsettle :
        authStates (ε := ε) initialAuthState
            (List.replicate (m + 1) (settledWhoami r)) =
          initialAuthState :: List.replicate (m + 1) (resolveAuth r) := by
      simp only [List.replicate_succ, authStates, authStep_settled,
        authStates_replicate_settled]
    rw [hsettle, collapseRuns_replicate_cons]
    have hne : (initialAuthState : AuthSnapshot User) ≠ resolveAuth r := by
      intro hcontra
      have hload := congrArg AuthSnapshot.loading hcontra
      simp [initialAuthState, resolveAuth] at hload
    simp only [List.replicate_succ]
    rw [collapseRuns, if_neg hne, collapseRuns_self_replicate]
  · intro s obs hs
    unfold authStep
    split
    · exact hs
    · rfl
  · intro e he
    subst he
    rfl

/-- C8 witness: two loading polls followed by a failing whoami check
publish exactly the two states, ending not-authenticated. -/
theorem authProvider_transitions_once_witness :
    collapseRuns (authStates initialAuthState
        (List.replicate 2 (loadingWhoami (ε := String)) ++
         List.replicate 1 (settledWhoami (Except.error "401")))) =
      [initialAuthState,
       ({ loading := false, authenticated := false, user := none } :
         AuthSnapshot Nat)] := by
  have h := @authProvider_transitions_once Nat String inferInstance inferInstance 2 0
    (Except.error "401")
  rw [h.1, h.2.2.2 "401" rfl]

end Lucid

namespace Lucid

/-! ## Claim C10: key-id normalization in the create modal -/

/-- The JS regex character class `\s`, over Unicode code points: tab
through carriage return, space, NBSP, the Ogham space mark, the general
punctuation spaces, line/paragraph separators, narrow no-break space,
medium mathematical space, ideographic space and the BOM. -/
def isJsWhitespace (n : Nat) : Bool :=
  decide (n = 9 ∨ n = 10 ∨ n = 11 ∨ n = 12 ∨ n = 13 ∨ n = 32 ∨
    n = 160 ∨ n = 5760 ∨ (8192 ≤ n ∧ n ≤ 8202) ∨ n = 8232 ∨ n = 8233 ∨
    n = 8239 ∨ n = 8287 ∨ n = 12288 ∨ n = 65279)

/-- One code point of `newVal.replace(/\s/g, "-")`: 45 is the dash. -/
def replaceWsWithDash (n : Nat) : Nat :=
  if isJsWhitespace n then 45 else n

/-- One code point of `toLowerCase()` on the basic Latin range that the
key-id input is concerned with: 65-90 are A-Z, offset 32 to a-z. -/
def toLowerCp (n : Nat) : Nat :=
  if 65 ≤ n ∧ n ≤ 90 then n + 32 else n

/-- `handleIdChange` (create-modal.tsx, lines 46-51): replace every
whitespace character with a dash, then lowercase the result. -/
def normalizeKeyId (s : List Nat) : List Nat :=
  (s.map replaceWsWithDash).map toLowerCp

/-- `handleSubmit` (create-modal.tsx, lines 40-44) posts the current id
state as `key_id`, i.e. the normalization of the last raw input. -/
def submittedKeyId (rawInput : List Nat) : List Nat :=
  normalizeKeyId rawInput

theorem isJsWhitespace_dash : isJsWhitespace 45 = false := by
  decide

theorem isJsWhitespace_replaceWs (n : Nat) :
    isJsWhitespace (replaceWsWithDash n) = false := by
  unfold replaceWsWithDash
  split
  · exact isJsWhitespace_dash
  · rename_i h
    simpa using h

theorem isJsWhitespace_toLowerCp (n : Nat) :
    isJsWhitespace (toLowerCp n) = isJsWhitespace n := by
  unfold toLowerCp
  split
  · rename_i h
    unfold isJsWhitespace
    rw [decide_eq_decide]
    omega
  · rfl

theorem toLowerCp_idem (n : Nat) : toLowerCp (toLowerCp n) = toLowerCp n := by
  unfold toLowerCp
  by_cases h : 65 ≤ n ∧ n ≤ 90
  · rw [if_pos h, if_neg (by omega)]
  · rw [if_neg h, if_neg h]

theorem toLowerCp_not_upper (n : Nat) : ¬(65 ≤ toLowerCp n ∧ toLowerCp n ≤ 90) := by
  unfold toLowerCp
  by_cases h : 65 ≤ n ∧ n ≤ 90
  · rw [if_pos h]
    omega
  · rw [if_neg h]
    omega

theorem normChar_idem (n : Nat) :
    toLowerCp (replaceWsWithDash (toLowerCp (replaceWsWithDash n))) =
      toLowerCp (replaceWsWithDash n) := by
  have hws : isJsWhitespace (toLowerCp (replaceWsWithDash n)) = false := by
    rw [isJsWhitespace_toLowerCp]
    exact isJsWhitespace_replaceWs n
  rw [replaceWsWithDash, if_neg (by simp [hws]), toLowerCp_idem]

/-- C10: the key-id normalization of the create modal is idempotent —
normalizing an already-normalized string changes nothing — and the
`key_id` posted by the mutation contains no whitespace character and no
uppercase Latin letter. -/
theorem createModal_keyId_normalized (s : List Nat) :
    normalizeKeyId (normalizeKeyId s) = normalizeKeyId s ∧
    (∀ c ∈ submittedKeyId s, isJsWhitespace c = false) ∧
    (∀ c ∈ submittedKeyId s, ¬(65 ≤ c ∧ c ≤ 90)) := by
  refine ⟨?_, ?_, ?_⟩
  · simp only [normalizeKeyId, List.map_map]
    exact List.map_congr_left (fun n _ => normChar_idem n)
  · intro c hc
    simp only [submittedKeyId, normalizeKeyId, List.map_map,
      List.mem_map] at hc
    obtain ⟨n, -, rfl⟩ := hc
    rw [Function.comp_apply, isJsWhitespace_toLowerCp]
    exact isJsWhitespace_replaceWs n
  · intro c hc
    simp only [submittedKeyId, normalizeKeyId, List.map_map,
      List.mem_map] at hc
    obtain ⟨n, -, rfl⟩ := hc
    exact toLowerCp_not_upper (replaceWsWithDash n)

/-- C10 witness: the raw input "My Key" (code points) normalizes to
"my-key", and renormalizing it changes nothing. -/
theorem createModal_keyId_normalized_witness :
    normalizeKeyId [77, 121, 32, 75, 101, 121] =
      [109, 121, 45, 107, 101, 121] ∧
    normalizeKeyId (normalizeKeyId [77, 121, 32, 75, 101, 121]) =
      normalizeKeyId [77, 121, 32, 75, 101, 121] := by
  exact ⟨by decide, (createModal_keyId_normalized
    [77, 121, 32, 75, 101, 121]).1⟩

end Lucid
